import Mathlib

set_option maxRecDepth 8000

/-!
Verification of the LangGraph chatbot backend and frontend glue code
(`langgraph_backend3.py`, `streamlit_frontend5.py`).

Shallow embedding conventions:
* Python numbers (`float` arguments of the calculator tool) are modeled as
  rationals; on add/sub/mul/div the "arithmetically correct result" of the spec
  is field arithmetic.
* The Python dict returned by `calculator` has two shapes, modeled as a sum
  type.  Quote characters that surround interpolated values inside Python
  message strings are elided from the modeled strings.
* The sqlite `checkpoints` table is a list of rows.  Each row carries the
  `thread_id` key, the nullable `thread_title` column, and the message list
  of the checkpoint snapshot it stores; `chatbot.get_state` (an opaque
  library call that replays the latest checkpoint of a thread) is modeled
  as reading the message list of the last row of that thread.
* `cursor.fetchone()` after a `SELECT thread_title ... WHERE thread_id
  = ?` is the head of the rows filtered by the key, and `cursor.rowcount`
  after an `UPDATE ... WHERE thread_id = ?` is the number of rows matching
  the key.
-/

namespace ChatbotSpec

/-- Result of `calculator` (backend lines 32-52): either the success dict
`first_num / second_num / operation / result` or the error dict. -/
inductive CalcResult where
  | ok (first_num second_num : ℚ) (operation : String) (result : ℚ)
  | error (msg : String)
deriving DecidableEq

/-- `calculator` (backend lines 32-52).  The `try`/`except` wrapper
re-raising nothing is implicit: the function is total. -/
def calculator (first_num second_num : ℚ) (operation : String) : CalcResult :=
  if operation = "add" then
    CalcResult.ok first_num second_num operation (first_num + second_num)
  else if operation = "sub" then
    CalcResult.ok first_num second_num operation (first_num - second_num)
  else if operation = "mul" then
    CalcResult.ok first_num second_num operation (first_num * second_num)
  else if operation = "div" then
    if second_num = 0 then
      CalcResult.error "Division by zero is not allowed"
    else
      CalcResult.ok first_num second_num operation (first_num / second_num)
  else
    CalcResult.error ("Unsupported operation " ++ operation)

/-- Title truncation used in both frontend (line 161) and backend
(lines 157, 182): the first 20 characters followed by "..." when the
text is longer than 20 characters, else the text verbatim. -/
def deriveTitle (s : String) : String :=
  if s.length > 20 then s.take 20 ++ "..." else s

/-- One row of the sqlite `checkpoints` table (plus the message list of the
checkpoint snapshot the row stores, see the module docstring). -/
structure CheckpointRow where
  thread_id : String
  thread_title : Option String
  messages : List String
deriving DecidableEq

/-- `load_conversation` (backend lines 126-132): the messages of the latest
checkpoint of the thread, or `[]` when the thread has no checkpoints. -/
def loadConversation (db : List CheckpointRow) (tid : String) : List String :=
  match (db.filter (fun r => r.thread_id == tid)).getLast? with
  | some r => r.messages
  | none => []

/-- `cursor.execute("SELECT thread_title FROM checkpoints WHERE thread_id= ?")`
followed by `fetchone()`: `none` when no row matches, otherwise the
(nullable) `thread_title` column of the first matching row. -/
def fetchStoredTitle (db : List CheckpointRow) (tid : String) :
    Option (Option String) :=
  ((db.filter (fun r => r.thread_id == tid)).head?).map (fun r => r.thread_title)

/-- Python truthiness of the fetched row and its title column:
`if row and row[0]` in backend lines 153 and 176. -/
def storedTitleTruthy (db : List CheckpointRow) (tid : String) : Bool :=
  match fetchStoredTitle db tid with
  | some (some t) => t != ""
  | _ => false

/-- Title resolution shared by `get_thread_by_id` (lines 153-159) and
`retrieve_all_threads` (lines 176-182): the stored title when the fetched
row and its title column are truthy, else the title derived from the first
message, else "New Chat".  (The two Python functions phrase the fallback
with `elif`/nested `if` respectively; both compute this value.) -/
def resolveTitle (db : List CheckpointRow) (tid : String) : String :=
  match fetchStoredTitle db tid with
  | some (some t) =>
      if t != "" then t
      else
        match loadConversation db tid with
        | [] => "New Chat"
        | m :: _ => deriveTitle m
  | _ =>
      match loadConversation db tid with
      | [] => "New Chat"
      | m :: _ => deriveTitle m

/-- The dict returned by `get_thread_by_id` and the elements of the list
returned by `retrieve_all_threads`. -/
structure ThreadObj where
  thread_id : String
  messages : List String
  thread_title : String
deriving DecidableEq

/-- `get_thread_by_id` (backend lines 147-163). -/
def getThreadById (db : List CheckpointRow) (tid : String) : ThreadObj :=
  { thread_id := tid
    messages := loadConversation db tid
    thread_title := resolveTitle db tid }

/-- The set comprehension over `checkpointer.list(None)` collecting every
`thread_id` (backend lines 167-170 and 197): the distinct keys of the
table. -/
def threadIds (db : List CheckpointRow) : List String :=
  (db.map (fun r => r.thread_id)).dedup

/-- `retrieve_all_threads` (backend lines 165-188). -/
def retrieveAllThreads (db : List CheckpointRow) : List ThreadObj :=
  (threadIds db).map (fun tid =>
    { thread_id := tid
      messages := loadConversation db tid
      thread_title := resolveTitle db tid })

/-- The per-row effect of
`UPDATE checkpoints SET thread_title= ? WHERE thread_id= ?`. -/
def updRow (tid new_title : String) (r : CheckpointRow) : CheckpointRow :=
  if r.thread_id == tid then { r with thread_title := some new_title } else r

/-- `update_thread_title` (backend lines 205-214): returns the updated
table together with the Python pair (success flag, message). -/
def updateThreadTitle (db : List CheckpointRow) (tid new_title : String) :
    List CheckpointRow × Bool × String :=
  let db2 := db.map (updRow tid new_title)
  let rowcount := (db.filter (fun r => r.thread_id == tid)).length
  if rowcount = 0 then
    (db2, false, "No thread found with ID: " ++ tid)
  else
    (db2, true, "Thread title updated successfully for ID: " ++ tid)

/-- The Python value passed as `thread_id` to `delete_threads`: the default
`None`, a string, or an integer.  (The application passes a string-like
id; the other variants exist to model Python truthiness of the guard.) -/
inductive PyArg where
  | none
  | str (s : String)
  | int (n : Int)
deriving DecidableEq

/-- Python truthiness: `if thread_id:` (backend line 193). -/
def PyArg.truthy : PyArg → Bool
  | PyArg.none => false
  | PyArg.str s => s != ""
  | PyArg.int n => n != 0

/-- The key value the argument binds against the `thread_id` column when
the single-thread branch runs. -/
def PyArg.key : PyArg → String
  | PyArg.none => ""
  | PyArg.str s => s
  | PyArg.int n => toString n

/-- `checkpointer.delete_thread(t)`: removes every checkpoint row of the
thread. -/
def deleteThread (db : List CheckpointRow) (t : String) : List CheckpointRow :=
  db.filter (fun r => r.thread_id != t)

/-- `delete_threads` (backend lines 190-203): single-thread branch when the
argument is truthy, otherwise delete every distinct thread and report the
count. -/
def deleteThreads (db : List CheckpointRow) (thread_id : PyArg) :
    List CheckpointRow × Bool × String :=
  if thread_id.truthy then
    (deleteThread db thread_id.key, true,
      "Successfully deleted conversation with ID: " ++ thread_id.key)
  else
    let all_threads := threadIds db
    let db2 := all_threads.foldl deleteThread db
    (db2, true,
      "Successfully deleted " ++ toString all_threads.length ++ " conversations")

/-- The sqlite schema state that `add_column_to_checkpoints_table` reads:
whether the `checkpoints` table exists (`sqlite_master` query, line 95)
and its column names (`PRAGMA table_info`, lines 99-100). -/
structure DbSchema where
  tableExists : Bool
  columns : List String
deriving DecidableEq

/-- `add_column_to_checkpoints_table` (backend lines 92-108): returns the
resulting schema together with the Python pair (success flag, message). -/
def add_column_to_checkpoints_table (schema : DbSchema)
    (column_name column_type : String) : DbSchema × Bool × String :=
  if !schema.tableExists then
    (schema, false, "Table checkpoints not created yet.")
  else if column_name ∉ schema.columns then
    ({ schema with columns := schema.columns ++ [column_name] }, true,
      "Column " ++ column_name ++ " added successfully.")
  else
    (schema, true, "Column " ++ column_name ++ " already exists.")

/-- The frontend `user_input` handling of the thread title
(streamlit frontend lines 159-162): fetch the thread, and only when its
resolved title is exactly "New Chat" derive a new title from the input and
persist it via `update_thread_title`. -/
def handleUserInputTitle (db : List CheckpointRow) (tid user_input : String) :
    List CheckpointRow :=
  let thread := getThreadById db tid
  if thread.thread_title = "New Chat" then
    let new_title := deriveTitle user_input
    (updateThreadTitle db tid new_title).1
  else
    db

/-- Title resolution as the specification words it for `list_threads`
(modeled from the spec, for comparison with `resolveTitle`): "stored title
if present and non-default, else derived from first message, else New
Chat", where the default title is "New Chat". -/
def specResolveTitle (db : List CheckpointRow) (tid : String) : String :=
  match fetchStoredTitle db tid with
  | some (some t) =>
      if t ≠ "New Chat" then t
      else
        match loadConversation db tid with
        | [] => "New Chat"
        | m :: _ => deriveTitle m
  | _ =>
      match loadConversation db tid with
      | [] => "New Chat"
      | m :: _ => deriveTitle m

end ChatbotSpec

namespace ChatbotSpec

/-! Helper lemmas about the table embedding. -/

theorem updRow_thread_id (tid t : String) (r : CheckpointRow) :
    (updRow tid t r).thread_id = r.thread_id := by
  unfold updRow; split <;> rfl

theorem updRow_messages (tid t : String) (r : CheckpointRow) :
    (updRow tid t r).messages = r.messages := by
  unfold updRow; split <;> rfl

theorem updRow_of_ne (tid t : String) (r : CheckpointRow) (h : r.thread_id ≠ tid) :
    updRow tid t r = r := by
  simp [updRow, h]

theorem updRow_of_eq (tid t : String) (r : CheckpointRow) (h : r.thread_id = tid) :
    updRow tid t r = { r with thread_title := some t } := by
  simp [updRow, h]

/-- Filtering on the key commutes with the per-row update, because the
update never touches the key column. -/
theorem filter_key_map_updRow (db : List CheckpointRow) (tid t x : String) :
    (db.map (updRow tid t)).filter (fun r => r.thread_id == x)
      = (db.filter (fun r => r.thread_id == x)).map (updRow tid t) := by
  rw [List.filter_map]
  exact congrArg _
    (List.filter_congr (fun r _ => by simp [Function.comp, updRow_thread_id]))

/-- The title update leaves the conversation of every thread untouched. -/
theorem loadConversation_map_updRow (db : List CheckpointRow) (tid t x : String) :
    loadConversation (db.map (updRow tid t)) x = loadConversation db x := by
  unfold loadConversation
  rw [filter_key_map_updRow, List.getLast?_map]
  cases (db.filter (fun r => r.thread_id == x)).getLast? with
  | none => rfl
  | some r => simp [updRow_messages]

/-- The title update leaves the stored title of every other thread
untouched. -/
theorem fetchStoredTitle_map_updRow_ne (db : List CheckpointRow) (tid t x : String)
    (hx : x ≠ tid) :
    fetchStoredTitle (db.map (updRow tid t)) x = fetchStoredTitle db x := by
  unfold fetchStoredTitle
  rw [filter_key_map_updRow, List.head?_map]
  cases hh : (db.filter (fun r => r.thread_id == x)).head? with
  | none => rfl
  | some r =>
      have hr : r ∈ db.filter (fun r => r.thread_id == x) :=
        List.mem_of_mem_head? (Option.mem_def.mpr hh)
      have hrx : r.thread_id = x := by simpa using List.of_mem_filter hr
      simp [updRow_of_ne tid t r (by rw [hrx]; exact hx)]

/-- After the update, the first stored row of the updated thread carries
the new title. -/
theorem fetchStoredTitle_map_updRow_eq (db : List CheckpointRow) (tid t : String)
    (h : tid ∈ db.map (fun r => r.thread_id)) :
    fetchStoredTitle (db.map (updRow tid t)) tid = some (some t) := by
  obtain ⟨r0, hr0, hrt⟩ := List.mem_map.mp h
  have hne : db.filter (fun r => r.thread_id == tid) ≠ [] := by
    intro hnil
    have hmem : r0 ∈ db.filter (fun r => r.thread_id == tid) :=
      List.mem_filter.mpr ⟨hr0, by simp [hrt]⟩
    rw [hnil] at hmem
    simp at hmem
  obtain ⟨b, L, hbL⟩ := List.exists_cons_of_ne_nil hne
  have hb : b ∈ db.filter (fun r => r.thread_id == tid) := by
    rw [hbL]; exact List.mem_cons_self _ _
  have hbid : b.thread_id = tid := by simpa using List.of_mem_filter hb
  unfold fetchStoredTitle
  rw [filter_key_map_updRow, hbL]
  simp [updRow_of_eq tid t b hbid]

/-- The title update leaves the resolved title of every other thread
untouched. -/
theorem resolveTitle_map_updRow_ne (db : List CheckpointRow) (tid t x : String)
    (hx : x ≠ tid) :
    resolveTitle (db.map (updRow tid t)) x = resolveTitle db x := by
  unfold resolveTitle
  rw [fetchStoredTitle_map_updRow_ne db tid t x hx, loadConversation_map_updRow]

/-- The table returned by `update_thread_title` is the rowwise update,
on both branches. -/
theorem updateThreadTitle_fst (db : List CheckpointRow) (tid t : String) :
    (updateThreadTitle db tid t).1 = db.map (updRow tid t) := by
  simp only [updateThreadTitle]
  split <;> rfl

end ChatbotSpec

namespace ChatbotSpec

/-- C1: for every pair of rationals and every supported operation (with a
nonzero second operand for division), `calculator` returns the record
carrying both operands, the operation tag, and the arithmetically correct
result. -/
theorem C1_calculator_correct (a b : ℚ) :
    calculator a b "add" = CalcResult.ok a b "add" (a + b) ∧
    calculator a b "sub" = CalcResult.ok a b "sub" (a - b) ∧
    calculator a b "mul" = CalcResult.ok a b "mul" (a * b) ∧
    (b ≠ 0 → calculator a b "div" = CalcResult.ok a b "div" (a / b)) := by
  refine ⟨rfl, rfl, rfl, fun hb => ?_⟩
  simp [calculator, hb]

/-- Witness for C1 at concrete inputs, division hypothesis discharged. -/
theorem C1_calculator_correct_witness :
    calculator 10 2 "div" = CalcResult.ok 10 2 "div" (10 / 2) :=
  (C1_calculator_correct 10 2).2.2.2 (by norm_num)

/-- C2: division by zero returns the structured error record and never a
success record; an unsupported operation returns a structured error whose
text names that operation.  Both paths return normally (the embedding is a
total function). -/
theorem C2_calculator_errors (a b : ℚ) (op : String)
    (hop : op ∉ (["add", "sub", "mul", "div"] : List String)) :
    calculator a 0 "div" = CalcResult.error "Division by zero is not allowed" ∧
    (∀ f s o r, calculator a 0 "div" ≠ CalcResult.ok f s o r) ∧
    calculator a b op = CalcResult.error ("Unsupported operation " ++ op) ∧
    (∃ pre post, "Unsupported operation " ++ op = pre ++ op ++ post) := by
  have h1 : op ≠ "add" := fun h => hop (by simp [h])
  have h2 : op ≠ "sub" := fun h => hop (by simp [h])
  have h3 : op ≠ "mul" := fun h => hop (by simp [h])
  have h4 : op ≠ "div" := fun h => hop (by simp [h])
  refine ⟨by simp [calculator], ?_, by simp [calculator, h1, h2, h3, h4], ?_⟩
  · intro f s o r
    simp [calculator]
  · exact ⟨"Unsupported operation ", "", by rw [String.append_empty]⟩

/-- Witness for C2 at concrete inputs, with the unsupported operation
"mod". -/
theorem C2_calculator_errors_witness :
    calculator 3 0 "div" = CalcResult.error "Division by zero is not allowed" ∧
    calculator 3 5 "mod" = CalcResult.error ("Unsupported operation " ++ "mod") :=
  ⟨(C2_calculator_errors 3 5 "mod" (by decide)).1,
   (C2_calculator_errors 3 5 "mod" (by decide)).2.2.1⟩

/-- C3: the derived title is the first 20 characters followed by "..."
exactly when the message is longer than 20 characters, else the message
verbatim; and the frontend applies this derivation only when the current
title of the thread is exactly "New Chat", leaving the table untouched
otherwise. -/
theorem C3_title_derivation (db : List CheckpointRow) (tid s : String) :
    (s.length > 20 → deriveTitle s = s.take 20 ++ "...") ∧
    (¬ s.length > 20 → deriveTitle s = s) ∧
    ((getThreadById db tid).thread_title = "New Chat" →
      handleUserInputTitle db tid s = (updateThreadTitle db tid (deriveTitle s)).1) ∧
    ((getThreadById db tid).thread_title ≠ "New Chat" →
      handleUserInputTitle db tid s = db) := by
  refine ⟨fun h => by simp [deriveTitle, h], fun h => by simp [deriveTitle, h],
    fun h => by simp [handleUserInputTitle, h], fun h => by simp [handleUserInputTitle, h]⟩

/-- Witness for C3: the two examples given in the spec (a 37-character message is
truncated, "Hi" is kept verbatim), a fresh thread whose resolved title is
"New Chat" gets the derived title persisted, and a thread with stored
title "X" is left untouched. -/
theorem C3_title_derivation_witness :
    deriveTitle "Hello there, how are you doing today?" =
      ("Hello there, how are you doing today?" : String).take 20 ++ "..." ∧
    deriveTitle "Hi" = "Hi" ∧
    handleUserInputTitle [] "t" "Hi" = (updateThreadTitle [] "t" (deriveTitle "Hi")).1 ∧
    handleUserInputTitle [⟨"t", some "X", []⟩] "t" "Hi" = [⟨"t", some "X", []⟩] :=
  ⟨(C3_title_derivation [] "t" "Hello there, how are you doing today?").1 (by decide),
   (C3_title_derivation [] "t" "Hi").2.1 (by decide),
   (C3_title_derivation [] "t" "Hi").2.2.1 (by decide),
   (C3_title_derivation [⟨"t", some "X", []⟩] "t" "Hi").2.2.2 (by decide)⟩

/-- C4 counterexample: the end-to-end example of the spec claims the title for
"What is 12 times 7?" is its first 20 characters followed by "...", but
that message has only 19 characters, so the code keeps it verbatim. -/
theorem C4_counterexample :
    deriveTitle "What is 12 times 7?" ≠
      ("What is 12 times 7?" : String).take 20 ++ "..." := by
  decide

/-- C4 amended: "What is 12 times 7?" has 19 characters, which is not more
than 20, so the automatically derived thread title is the message
verbatim; starting from a thread whose resolved title is "New Chat", the
frontend persists exactly that verbatim title. -/
theorem C4_amended :
    ("What is 12 times 7?" : String).length = 19 ∧
    deriveTitle "What is 12 times 7?" = "What is 12 times 7?" ∧
    handleUserInputTitle [⟨"t", none, []⟩] "t" "What is 12 times 7?" =
      [⟨"t", some "What is 12 times 7?", []⟩] := by
  refine ⟨by decide, by decide, ?_⟩
  decide

/-- C5: renaming a thread_id with no row in the store affects zero rows,
so the table is returned unchanged with success = false and a message that
names that thread_id; the embedding is a total function (no exception). -/
theorem C5_rename_missing (db : List CheckpointRow) (tid new_title : String)
    (h : tid ∉ db.map (fun r => r.thread_id)) :
    updateThreadTitle db tid new_title =
      (db, false, "No thread found with ID: " ++ tid) ∧
    ∃ pre, "No thread found with ID: " ++ tid = pre ++ tid := by
  have hfil : db.filter (fun r => r.thread_id == tid) = [] := by
    rw [List.filter_eq_nil_iff]
    intro r hr hmatch
    exact h (List.mem_map.mpr ⟨r, hr, by simpa using hmatch⟩)
  have hmap : db.map (updRow tid new_title) = db := by
    have hid : ∀ r ∈ db, updRow tid new_title r = r := by
      intro r hr
      refine updRow_of_ne tid new_title r (fun he => ?_)
      exact h (List.mem_map.mpr ⟨r, hr, he⟩)
    calc db.map (updRow tid new_title) = db.map (fun a => a) :=
          List.map_congr_left hid
      _ = db := List.map_id' db
  refine ⟨?_, ⟨"No thread found with ID: ", rfl⟩⟩
  simp [updateThreadTitle, hfil, hmap]

/-- Witness for C5: a one-row table for thread "a", renaming thread "b". -/
theorem C5_rename_missing_witness :
    updateThreadTitle [⟨"a", none, []⟩] "b" "T" =
      ([⟨"a", none, []⟩], false, "No thread found with ID: " ++ "b") :=
  (C5_rename_missing [⟨"a", none, []⟩] "b" "T" (by decide)).1

/-- C6: renaming an existing thread succeeds and changes only that
title of that thread alone: the conversation of every thread is
unchanged, the stored and resolved titles of every other thread are
unchanged, and the stored title of the renamed thread becomes the new
title. -/
theorem C6_rename_frame (db : List CheckpointRow) (tid new_title : String)
    (h : tid ∈ db.map (fun r => r.thread_id)) :
    (updateThreadTitle db tid new_title).2.1 = true ∧
    (∀ x, loadConversation (updateThreadTitle db tid new_title).1 x =
      loadConversation db x) ∧
    (∀ x, x ≠ tid →
      fetchStoredTitle (updateThreadTitle db tid new_title).1 x =
        fetchStoredTitle db x) ∧
    (∀ x, x ≠ tid →
      resolveTitle (updateThreadTitle db tid new_title).1 x = resolveTitle db x) ∧
    fetchStoredTitle (updateThreadTitle db tid new_title).1 tid =
      some (some new_title) := by
  obtain ⟨r0, hr0, hrt⟩ := List.mem_map.mp h
  have hne : db.filter (fun r => r.thread_id == tid) ≠ [] := by
    intro hnil
    have hmem : r0 ∈ db.filter (fun r => r.thread_id == tid) :=
      List.mem_filter.mpr ⟨hr0, by simp [hrt]⟩
    rw [hnil] at hmem
    simp at hmem
  have hsucc : (updateThreadTitle db tid new_title).2.1 = true := by
    simp only [updateThreadTitle]
    rw [if_neg (fun h0 => hne (List.length_eq_zero.mp h0))]
  rw [updateThreadTitle_fst]
  exact ⟨hsucc, fun x => loadConversation_map_updRow db tid new_title x,
    fun x hx => fetchStoredTitle_map_updRow_ne db tid new_title x hx,
    fun x hx => resolveTitle_map_updRow_ne db tid new_title x hx,
    fetchStoredTitle_map_updRow_eq db tid new_title h⟩

/-- Witness for C6: a two-thread table, renaming thread "a" to "T" keeps
thread "b" intact and stores the new title for "a". -/
theorem C6_rename_frame_witness :
    (updateThreadTitle [⟨"a", none, ["m1"]⟩, ⟨"b", some "B", ["m2"]⟩] "a" "T").2.1 =
      true ∧
    loadConversation
      (updateThreadTitle [⟨"a", none, ["m1"]⟩, ⟨"b", some "B", ["m2"]⟩] "a" "T").1 "a" =
      loadConversation [⟨"a", none, ["m1"]⟩, ⟨"b", some "B", ["m2"]⟩] "a" ∧
    resolveTitle
      (updateThreadTitle [⟨"a", none, ["m1"]⟩, ⟨"b", some "B", ["m2"]⟩] "a" "T").1 "b" =
      resolveTitle [⟨"a", none, ["m1"]⟩, ⟨"b", some "B", ["m2"]⟩] "b" ∧
    fetchStoredTitle
      (updateThreadTitle [⟨"a", none, ["m1"]⟩, ⟨"b", some "B", ["m2"]⟩] "a" "T").1 "a" =
      some (some "T") :=
  ⟨(C6_rename_frame [⟨"a", none, ["m1"]⟩, ⟨"b", some "B", ["m2"]⟩] "a" "T" (by decide)).1,
   (C6_rename_frame [⟨"a", none, ["m1"]⟩, ⟨"b", some "B", ["m2"]⟩] "a" "T"
      (by decide)).2.1 "a",
   (C6_rename_frame [⟨"a", none, ["m1"]⟩, ⟨"b", some "B", ["m2"]⟩] "a" "T"
      (by decide)).2.2.2.1 "b" (by decide),
   (C6_rename_frame [⟨"a", none, ["m1"]⟩, ⟨"b", some "B", ["m2"]⟩] "a" "T"
      (by decide)).2.2.2.2⟩

/-- Folding `checkpointer.delete_thread` over a list of keys filters out
every row whose key is in the list. -/
theorem foldl_deleteThread_eq_filter (ts : List String) (db : List CheckpointRow) :
    ts.foldl deleteThread db = db.filter (fun r => decide (r.thread_id ∉ ts)) := by
  induction ts generalizing db with
  | nil => simp
  | cons t ts ih =>
      rw [List.foldl_cons, ih]
      unfold deleteThread
      rw [List.filter_filter]
      refine List.filter_congr (fun r _ => ?_)
      by_cases h1 : r.thread_id = t <;> by_cases h2 : r.thread_id ∈ ts <;>
        simp [h1, h2]

/-- The delete-all branch of `delete_threads` empties the table and
reports the number of distinct thread ids. -/
theorem deleteThreads_none (db : List CheckpointRow) :
    deleteThreads db PyArg.none =
      ([], true,
        "Successfully deleted " ++ toString (threadIds db).length ++
          " conversations") := by
  unfold deleteThreads
  rw [if_neg (by simp [PyArg.truthy])]
  have hempty : (threadIds db).foldl deleteThread db = [] := by
    rw [foldl_deleteThread_eq_filter, List.filter_eq_nil_iff]
    intro r hr hdec
    simp only [decide_eq_true_eq] at hdec
    exact hdec (List.mem_dedup.mpr (List.mem_map.mpr ⟨r, hr, rfl⟩))
  simp only [hempty]

/-- The thread ids of the summaries returned by `retrieve_all_threads`
are exactly the distinct keys of the table. -/
theorem retrieveAllThreads_ids (db : List CheckpointRow) :
    (retrieveAllThreads db).map (fun o => o.thread_id) = threadIds db := by
  unfold retrieveAllThreads
  rw [List.map_map]
  exact (List.map_congr_left (fun a _ => rfl)).trans (List.map_id' _)

/-- C7: deleting a single thread removes every row of that thread, so a
subsequent listing no longer contains it; deleting all reports success
with a count equal to the number of distinct thread ids that existed
beforehand, and a subsequent listing is empty. -/
theorem C7_delete_threads (db : List CheckpointRow) (s : String) (hs : s ≠ "") :
    (deleteThreads db (PyArg.str s)).2.1 = true ∧
    (∀ r ∈ (deleteThreads db (PyArg.str s)).1, r.thread_id ≠ s) ∧
    s ∉ (retrieveAllThreads (deleteThreads db (PyArg.str s)).1).map
        (fun o => o.thread_id) ∧
    deleteThreads db PyArg.none =
      ([], true,
        "Successfully deleted " ++
          toString ((db.map (fun r => r.thread_id)).dedup).length ++
          " conversations") ∧
    retrieveAllThreads (deleteThreads db PyArg.none).1 = [] := by
  have hstr : deleteThreads db (PyArg.str s) =
      (deleteThread db s, true,
        "Successfully deleted conversation with ID: " ++ s) := by
    unfold deleteThreads
    rw [if_pos (by simp [PyArg.truthy, hs])]
    rfl
  refine ⟨by rw [hstr], ?_, ?_, deleteThreads_none db, ?_⟩
  · rw [hstr]
    intro r hr
    unfold deleteThread at hr
    have hmem := List.of_mem_filter hr
    simpa using hmem
  · rw [hstr, retrieveAllThreads_ids]
    intro hmem
    obtain ⟨r, hr, hrs⟩ := List.mem_map.mp (List.mem_dedup.mp hmem)
    unfold deleteThread at hr
    have hne := List.of_mem_filter hr
    rw [hrs] at hne
    simp at hne
  · rw [deleteThreads_none db]
    rfl

/-- Exhaustive case analysis of the title resolution the code performs:
a truthy stored title wins (even when it equals the default "New Chat"),
else the title derived from the first message, else "New Chat". -/
theorem resolveTitle_cases (db : List CheckpointRow) (tid : String) :
    (∃ t, fetchStoredTitle db tid = some (some t) ∧ t ≠ "" ∧
      resolveTitle db tid = t) ∨
    (storedTitleTruthy db tid = false ∧
      ((loadConversation db tid = [] ∧ resolveTitle db tid = "New Chat") ∨
        (∃ m ms, loadConversation db tid = m :: ms ∧
          resolveTitle db tid = deriveTitle m))) := by
  unfold resolveTitle storedTitleTruthy
  cases hf : fetchStoredTitle db tid with
  | none =>
      refine Or.inr ⟨rfl, ?_⟩
      cases hl : loadConversation db tid with
      | nil => exact Or.inl ⟨rfl, rfl⟩
      | cons m ms => exact Or.inr ⟨m, ms, rfl, rfl⟩
  | some ot =>
      cases ot with
      | none =>
          refine Or.inr ⟨rfl, ?_⟩
          cases hl : loadConversation db tid with
          | nil => exact Or.inl ⟨rfl, rfl⟩
          | cons m ms => exact Or.inr ⟨m, ms, rfl, rfl⟩
      | some t =>
          by_cases ht : t = ""
          · subst ht
            refine Or.inr ⟨by simp, ?_⟩
            cases hl : loadConversation db tid with
            | nil => exact Or.inl ⟨rfl, by simp⟩
            | cons m ms => exact Or.inr ⟨m, ms, rfl, by simp⟩
          · exact Or.inl ⟨t, rfl, ht, by simp [ht]⟩

/-- C9 counterexample: for a thread whose stored title is exactly the
default "New Chat" and whose first message is "Hello world", the listing
keeps the stored "New Chat" while the precedence stated in the spec (stored
title only if present and non-default, else derived) demands the derived
title "Hello world". -/
theorem C9_counterexample :
    (retrieveAllThreads [⟨"t1", some "New Chat", ["Hello world"]⟩]).map
        (fun o => o.thread_title) = ["New Chat"] ∧
    specResolveTitle [⟨"t1", some "New Chat", ["Hello world"]⟩] "t1" =
      "Hello world" ∧
    ¬ ∀ o ∈ retrieveAllThreads [⟨"t1", some "New Chat", ["Hello world"]⟩],
        o.thread_title =
          specResolveTitle [⟨"t1", some "New Chat", ["Hello world"]⟩] o.thread_id := by
  refine ⟨?_, ?_, ?_⟩ <;> decide

/-- C9 amended: `retrieve_all_threads` returns every known thread_id
exactly once (no duplicates, and exactly the distinct keys of the table),
each summary carrying the conversation of the thread, and its title resolved
as: the stored title when present and truthy (non-empty — even when it
equals the default "New Chat"), else the title derived from the first
message of the thread, else "New Chat". -/
theorem C9_amended (db : List CheckpointRow) :
    ((retrieveAllThreads db).map (fun o => o.thread_id)).Nodup ∧
    (∀ tid, tid ∈ (retrieveAllThreads db).map (fun o => o.thread_id) ↔
      tid ∈ db.map (fun r => r.thread_id)) ∧
    ∀ o ∈ retrieveAllThreads db,
      o.messages = loadConversation db o.thread_id ∧
      ((∃ t, fetchStoredTitle db o.thread_id = some (some t) ∧ t ≠ "" ∧
          o.thread_title = t) ∨
        (storedTitleTruthy db o.thread_id = false ∧
          ((loadConversation db o.thread_id = [] ∧ o.thread_title = "New Chat") ∨
            (∃ m ms, loadConversation db o.thread_id = m :: ms ∧
              o.thread_title = deriveTitle m)))) := by
  refine ⟨?_, ?_, ?_⟩
  · rw [retrieveAllThreads_ids]
    exact List.nodup_dedup _
  · intro tid
    rw [retrieveAllThreads_ids]
    exact List.mem_dedup
  · intro o ho
    unfold retrieveAllThreads at ho
    obtain ⟨tid, htid, rfl⟩ := List.mem_map.mp ho
    exact ⟨rfl, resolveTitle_cases db tid⟩

/-- Witness for C9 amended: a one-row table whose stored title is "Saved"
and whose conversation is ["Hello"]. -/
theorem C9_amended_witness :
    ((retrieveAllThreads [⟨"t1", some "Saved", ["Hello"]⟩]).map
        (fun o => o.thread_id)).Nodup ∧
    ((⟨"t1", ["Hello"], "Saved"⟩ : ThreadObj).messages =
        loadConversation [⟨"t1", some "Saved", ["Hello"]⟩]
          (⟨"t1", ["Hello"], "Saved"⟩ : ThreadObj).thread_id ∧
      ((∃ t, fetchStoredTitle [⟨"t1", some "Saved", ["Hello"]⟩]
            (⟨"t1", ["Hello"], "Saved"⟩ : ThreadObj).thread_id = some (some t) ∧
          t ≠ "" ∧ (⟨"t1", ["Hello"], "Saved"⟩ : ThreadObj).thread_title = t) ∨
        (storedTitleTruthy [⟨"t1", some "Saved", ["Hello"]⟩]
            (⟨"t1", ["Hello"], "Saved"⟩ : ThreadObj).thread_id = false ∧
          ((loadConversation [⟨"t1", some "Saved", ["Hello"]⟩]
              (⟨"t1", ["Hello"], "Saved"⟩ : ThreadObj).thread_id = [] ∧
            (⟨"t1", ["Hello"], "Saved"⟩ : ThreadObj).thread_title = "New Chat") ∨
            (∃ m ms, loadConversation [⟨"t1", some "Saved", ["Hello"]⟩]
                (⟨"t1", ["Hello"], "Saved"⟩ : ThreadObj).thread_id = m :: ms ∧
              (⟨"t1", ["Hello"], "Saved"⟩ : ThreadObj).thread_title =
                deriveTitle m))))) :=
  ⟨(C9_amended [⟨"t1", some "Saved", ["Hello"]⟩]).1,
   (C9_amended [⟨"t1", some "Saved", ["Hello"]⟩]).2.2
     ⟨"t1", ["Hello"], "Saved"⟩ (by decide)⟩

/-- Witness for C7: a two-thread table, deleting thread "a", then
deleting all. -/
theorem C7_delete_threads_witness :
    (deleteThreads [⟨"a", none, []⟩, ⟨"b", none, []⟩] (PyArg.str "a")).2.1 = true ∧
    "a" ∉ (retrieveAllThreads
        (deleteThreads [⟨"a", none, []⟩, ⟨"b", none, []⟩] (PyArg.str "a")).1).map
        (fun o => o.thread_id) ∧
    retrieveAllThreads
      (deleteThreads [⟨"a", none, []⟩, ⟨"b", none, []⟩] PyArg.none).1 = [] :=
  ⟨(C7_delete_threads [⟨"a", none, []⟩, ⟨"b", none, []⟩] "a" (by decide)).1,
   (C7_delete_threads [⟨"a", none, []⟩, ⟨"b", none, []⟩] "a" (by decide)).2.2.1,
   (C7_delete_threads [⟨"a", none, []⟩, ⟨"b", none, []⟩] "a" (by decide)).2.2.2.2⟩

/-- C8: given the checkpoints table exists, adding the `thread_title`
column twice in succession reports non-failure on both calls and the
second call leaves the schema unchanged (the column-existence check fires
before the ALTER); when the table does not exist yet the call returns a
failure pair instead of raising. -/
theorem C8_add_column_idempotent (schema : DbSchema) (c ty : String) :
    (schema.tableExists = true →
      (add_column_to_checkpoints_table schema c ty).2.1 = true ∧
      (add_column_to_checkpoints_table
          (add_column_to_checkpoints_table schema c ty).1 c ty).2.1 = true ∧
      (add_column_to_checkpoints_table
          (add_column_to_checkpoints_table schema c ty).1 c ty).1 =
        (add_column_to_checkpoints_table schema c ty).1) ∧
    (schema.tableExists = false →
      add_column_to_checkpoints_table schema c ty =
        (schema, false, "Table checkpoints not created yet.")) := by
  constructor
  · intro ht
    by_cases hc : c ∈ schema.columns
    · simp [add_column_to_checkpoints_table, ht, hc]
    · simp [add_column_to_checkpoints_table, ht, hc]
  · intro ht
    simp [add_column_to_checkpoints_table, ht]

/-- Witness for C8: a schema holding the table with one column, and a
schema without the table. -/
theorem C8_add_column_idempotent_witness :
    ((add_column_to_checkpoints_table ⟨true, ["thread_id"]⟩ "thread_title" "TEXT").2.1 =
        true ∧
      (add_column_to_checkpoints_table
          (add_column_to_checkpoints_table ⟨true, ["thread_id"]⟩ "thread_title" "TEXT").1
          "thread_title" "TEXT").2.1 = true ∧
      (add_column_to_checkpoints_table
          (add_column_to_checkpoints_table ⟨true, ["thread_id"]⟩ "thread_title" "TEXT").1
          "thread_title" "TEXT").1 =
        (add_column_to_checkpoints_table ⟨true, ["thread_id"]⟩ "thread_title" "TEXT").1) ∧
    add_column_to_checkpoints_table ⟨false, []⟩ "thread_title" "TEXT" =
      (⟨false, []⟩, false, "Table checkpoints not created yet.") :=
  ⟨(C8_add_column_idempotent ⟨true, ["thread_id"]⟩ "thread_title" "TEXT").1 rfl,
   (C8_add_column_idempotent ⟨false, []⟩ "thread_title" "TEXT").2 rfl⟩

/-- C10: every falsy `thread_id` argument (`None`, the empty string, or
the integer 0) fails the truthiness guard, so `delete_threads` takes the
delete-all branch: the resulting table is empty and the call reports
success, instead of failing or deleting a single thread. -/
theorem C10_falsy_deletes_all (db : List CheckpointRow) :
    PyArg.truthy PyArg.none = false ∧
    PyArg.truthy (PyArg.str "") = false ∧
    PyArg.truthy (PyArg.int 0) = false ∧
    deleteThreads db (PyArg.str "") = deleteThreads db PyArg.none ∧
    deleteThreads db (PyArg.int 0) = deleteThreads db PyArg.none ∧
    (deleteThreads db PyArg.none).1 = [] ∧
    (deleteThreads db PyArg.none).2.1 = true := by
  refine ⟨rfl, by decide, by decide, ?_, ?_, ?_, ?_⟩
  · unfold deleteThreads
    rw [if_neg (by simp [PyArg.truthy]), if_neg (by simp [PyArg.truthy])]
  · unfold deleteThreads
    rw [if_neg (by simp [PyArg.truthy]), if_neg (by simp [PyArg.truthy])]
  · rw [deleteThreads_none db]
  · rw [deleteThreads_none db]

end ChatbotSpec
